import Mathlib

/-!
Verification of the newton `ViewerRerun` streaming-viewer session layer.

The implementation file `newton/_src/viewer/viewer_rerun.py` is not part of
the shipped sources; only its unit tests are. The definitions below are
therefore modelled from the specification (data model, component contracts,
error handling) and pinned to the concrete behaviour the test suite asserts
(attribute names, the `server_uri` unbound-local failure, the message of the
missing-dependency error). Sink interactions (rerun calls) are recorded as an
explicit event trace; fallible construction returns `Except`.
-/

namespace NewtonViewer

/-- Blueprint document: one visibility override per tracked entity path plus
a default scene view descriptor. Modelled from the spec: the output of
`BlueprintBuilder.build` over a registry snapshot. -/
structure Blueprint where
  overrides : List (String × Bool)
  defaultView : Bool
  deriving DecidableEq

/-- Calls made on the external sink (the rerun backend), recorded as events. -/
inductive SinkEvent where
  | rrInit (appId : String)
  | serveGrpc
  | serveWebViewer (uri : String)
  | logRecord (path : String)
  | sendBlueprint (bp : Blueprint)
  deriving DecidableEq

/-- Failures that session construction can raise. `importError` models the
Python ImportError raised when the rerun module is absent; `unboundLocal`
models the Python UnboundLocalError raised when a conditionally assigned
local variable is read before assignment. -/
inductive InitError where
  | importError (msg : String)
  | unboundLocal (varName : String)
  deriving DecidableEq

/-- State of one `ViewerRerun` session, with the fields the tests inspect:
construction parameters stored on the object, the running flag, the viewer
process handle, the mesh and instance caches, the visibility registry
(insertion-ordered association list, matching a Python dict), and the
single-use blueprint-applied flag. -/
structure ViewerState where
  server : Bool
  address : String
  launch_viewer : Bool
  app_id : String
  running : Bool
  viewer_process : Option String
  meshes : List String
  instances : List String
  entity_visibility : List (String × Bool)
  blueprint_applied : Bool
  deriving DecidableEq

/-- Message of the missing-dependency error. Modelled from the spec and the
test `test_init_import_error_when_rerun_not_installed`: it names the missing
capability and the remedy. -/
def rerunMissingMsg : String :=
  "rerun package is required for ViewerRerun. Install with: pip install rerun-sdk"

/-- Modelled from the spec: `ViewerRerun.__init__`. Checks the rerun
dependency first, stores the construction parameters, calls `rr.init`,
opens the streaming endpoint when `server` is set (binding the local
variable `server_uri` only in that branch), and attaches the web viewer
when `launch_viewer` is set by reading `server_uri` — which is unbound when
`server` is false. `rrAvailable` models whether the rerun module imported;
`grpcUri` models the URI returned by `rr.serve_grpc`. -/
def initViewer (rrAvailable : Bool) (grpcUri : String) (server : Bool)
    (address : Option String) (launch_viewer : Bool) (app_id : Option String) :
    Except InitError (ViewerState × List SinkEvent) :=
  if rrAvailable = false then
    .error (.importError rerunMissingMsg)
  else
    let appId := app_id.getD "newton-viewer"
    let ev0 : List SinkEvent := [.rrInit appId]
    let server_uri : Option String := if server then some grpcUri else none
    let ev1 : List SinkEvent := ev0 ++ (if server then [.serveGrpc] else [])
    let addr := address.getD "127.0.0.1:9876"
    let st : ViewerState :=
      { server := server
        address := addr
        launch_viewer := launch_viewer
        app_id := appId
        running := true
        viewer_process := none
        meshes := []
        instances := []
        entity_visibility := []
        blueprint_applied := false }
    if launch_viewer then
      match server_uri with
      | none => .error (.unboundLocal "server_uri")
      | some uri => .ok (st, ev1 ++ [.serveWebViewer uri])
    else
      .ok (st, ev1)

/-- State of a session constructed with streaming and viewer launch both
disabled, the configuration every registry and blueprint test uses. -/
def initialState : ViewerState :=
  { server := false
    address := "127.0.0.1:9876"
    launch_viewer := false
    app_id := "newton-viewer"
    running := true
    viewer_process := none
    meshes := []
    instances := []
    entity_visibility := []
    blueprint_applied := false }

/-- Construction with server and viewer launch disabled succeeds and yields
the clean initial state, emitting only the `rr.init` call. -/
theorem initViewer_disabled (uri : String) :
    initViewer true uri false none false none
      = .ok (initialState, [SinkEvent.rrInit "newton-viewer"]) := rfl

/-- Modelled from the spec: `VisibilityRegistry.record`. Sets
`visible[path] = v` with Python-dict semantics: overwriting an existing key
keeps its original insertion position, a new key is appended at the end. -/
def record (reg : List (String × Bool)) (path : String) (v : Bool) :
    List (String × Bool) :=
  match reg with
  | [] => [(path, v)]
  | (p, w) :: rest =>
    if p = path then (p, v) :: rest else (p, w) :: record rest path v

/-- Lookup of the visibility flag recorded for a path. -/
def visibleOf (reg : List (String × Bool)) (path : String) : Option Bool :=
  match reg with
  | [] => none
  | (p, w) :: rest => if p = path then some w else visibleOf rest path

/-- Key insertion for the mesh and instance caches (Python dict keys). -/
def cacheInsert (xs : List String) (x : String) : List String :=
  if x ∈ xs then xs else xs ++ [x]

/-- Modelled from the spec: `ViewerRerun.log_mesh`. Forwards the geometry
record to the sink unconditionally and records `visible = not hidden` for
the path in the registry. -/
def log_mesh (st : ViewerState) (path : String) (hidden : Bool) :
    ViewerState × List SinkEvent :=
  ({ st with
      meshes := cacheInsert st.meshes path
      entity_visibility := record st.entity_visibility path (!hidden) },
   [.logRecord path])

/-- Modelled from the spec: `ViewerRerun.log_instances`. Forwards the
instance batch to the sink (the template reference is resolved by the sink,
not validated here) and records visibility exactly as `log_mesh`. -/
def log_instances (st : ViewerState) (path templatePath : String)
    (hidden : Bool) : ViewerState × List SinkEvent :=
  ({ st with
      instances := cacheInsert st.instances path
      entity_visibility := record st.entity_visibility path (!hidden) },
   [.logRecord path])

/-- Modelled from the spec: `BlueprintBuilder.build`. One visibility
override per snapshot entry plus the default view descriptor. -/
def buildBlueprint (snapshot : List (String × Bool)) : Blueprint :=
  { overrides := snapshot, defaultView := true }

/-- Modelled from the spec: `ViewerRerun._apply_blueprint`. Idempotent
guard: a no-op when the blueprint-applied flag is already set; otherwise
snapshots the registry, builds a Blueprint, sends it, and sets the flag.
The only operation that emits a `sendBlueprint` event. -/
def apply_blueprint (st : ViewerState) : ViewerState × List SinkEvent :=
  if st.blueprint_applied then (st, [])
  else
    ({ st with blueprint_applied := true },
     [.sendBlueprint (buildBlueprint st.entity_visibility)])

/-- One shape of a model: its key and its intended visibility. -/
structure Shape where
  key : String
  visible : Bool
  deriving DecidableEq

/-- A finalized model, reduced to the data `set_model` consumes. -/
structure Model where
  shapes : List Shape
  deriving DecidableEq

/-- Modelled from the spec: the per-shape emission loop of `set_model`.
Each shape contributes a template geometry entry under `/geometry/<key>`
logged with `hidden = true`, and a drawable instance entity referencing it
with the intended visibility of the shape. -/
def logShapes (st : ViewerState) : List Shape → ViewerState × List SinkEvent
  | [] => (st, [])
  | s :: rest =>
    let r1 := log_mesh st ("/geometry/" ++ s.key) true
    let r2 :=
      log_instances r1.1 ("/instances/" ++ s.key) ("/geometry/" ++ s.key)
        (!s.visible)
    let r3 := logShapes r2.1 rest
    (r3.1, r1.2 ++ r2.2 ++ r3.2)

/-- Modelled from the spec: `ViewerRerun.set_model`. Emits every shape of
the model, then triggers `apply_blueprint` once. -/
def set_model (st : ViewerState) (m : Model) : ViewerState × List SinkEvent :=
  let r1 := logShapes st m.shapes
  let r2 := apply_blueprint r1.1
  (r2.1, r1.2 ++ r2.2)

/-- Public operations of a live session, for reasoning over call sequences. -/
inductive Op where
  | logMesh (path : String) (hidden : Bool)
  | logInstances (path templatePath : String) (hidden : Bool)
  | setModel (m : Model)
  deriving DecidableEq

/-- Single-step execution of one public operation. -/
def execOp (st : ViewerState) : Op → ViewerState × List SinkEvent
  | .logMesh p h => log_mesh st p h
  | .logInstances p t h => log_instances st p t h
  | .setModel m => set_model st m

/-- Execution of a call sequence, accumulating the sink event trace. -/
def runOps (st : ViewerState) : List Op → ViewerState × List SinkEvent
  | [] => (st, [])
  | op :: rest =>
    let r1 := execOp st op
    let r2 := runOps r1.1 rest
    (r2.1, r1.2 ++ r2.2)

/-- Whether a sink event is a Blueprint transmission. -/
def isBlueprintEvent : SinkEvent → Bool
  | .sendBlueprint _ => true
  | _ => false

/-- Number of Blueprint transmissions in a trace. -/
def countBlueprints (evs : List SinkEvent) : Nat :=
  evs.countP (fun e => isBlueprintEvent e)

/-- Whether an operation is a `set_model` call. -/
def isSetModelOp : Op → Bool
  | .setModel _ => true
  | _ => false

/-- Whether a path lies under the reserved template prefix, with the list
semantics of Python `str.startswith`. -/
def isTemplatePath (path : String) : Bool :=
  List.isPrefixOf "/geometry/".data path.data

/-- Registry check: every tracked entry whose path lies under the template
prefix carries visibility `false`. -/
def geomHiddenCheck (reg : List (String × Bool)) : Bool :=
  reg.all (fun pv => !(isTemplatePath pv.1) || pv.2 == false)

/-- Registry property behind `geomHiddenCheck`, in propositional form. -/
def GeomHidden (reg : List (String × Bool)) : Prop :=
  ∀ pv ∈ reg, isTemplatePath pv.1 = true → pv.2 = false

theorem geomHiddenCheck_iff (reg : List (String × Bool)) :
    geomHiddenCheck reg = true ↔ GeomHidden reg := by
  simp [geomHiddenCheck, GeomHidden, List.all_eq_true]

theorem isTemplatePath_instances (s : String) :
    isTemplatePath ("/instances/" ++ s) = false := rfl

theorem visibleOf_record_self (reg : List (String × Bool)) (p : String)
    (v : Bool) : visibleOf (record reg p v) p = some v := by
  induction reg with
  | nil => simp [record, visibleOf]
  | cons pv rest ih =>
    obtain ⟨q, w⟩ := pv
    by_cases hq : q = p
    · subst hq
      simp [record, visibleOf]
    · simp [record, visibleOf, hq, ih]

theorem visibleOf_record_ne (reg : List (String × Bool)) (p q : String)
    (v : Bool) (hne : q ≠ p) :
    visibleOf (record reg p v) q = visibleOf reg q := by
  induction reg with
  | nil =>
    have h : ¬p = q := fun h => hne h.symm
    simp [record, visibleOf, h]
  | cons pv rest ih =>
    obtain ⟨r, w⟩ := pv
    by_cases hr : r = p
    · subst hr
      have h : ¬r = q := fun h2 => hne h2.symm
      simp [record, visibleOf, h]
    · simp only [record, if_neg hr, visibleOf]
      by_cases hrq : r = q
      · simp [hrq]
      · simp [hrq, ih]

theorem mem_record (reg : List (String × Bool)) (p : String) (v : Bool) :
    ∀ pv ∈ record reg p v, pv ∈ reg ∨ pv = (p, v) := by
  induction reg with
  | nil =>
    intro pv hpv
    simp only [record, List.mem_singleton] at hpv
    exact Or.inr hpv
  | cons qw rest ih =>
    obtain ⟨q, w⟩ := qw
    intro pv hpv
    by_cases hq : q = p
    · subst hq
      simp only [record, List.mem_cons, if_pos trivial] at hpv
      rcases hpv with h1 | h1
      · exact Or.inr h1
      · exact Or.inl (List.mem_cons_of_mem _ h1)
    · simp only [record, if_neg hq, List.mem_cons] at hpv
      rcases hpv with h1 | h1
      · exact Or.inl (h1 ▸ List.mem_cons_self (q, w) rest)
      · rcases ih pv h1 with h2 | h2
        · exact Or.inl (List.mem_cons_of_mem _ h2)
        · exact Or.inr h2

theorem keys_record (reg : List (String × Bool)) (p : String) (v : Bool) :
    (record reg p v).map Prod.fst
      = if p ∈ reg.map Prod.fst then reg.map Prod.fst
        else reg.map Prod.fst ++ [p] := by
  induction reg with
  | nil => simp [record]
  | cons qw rest ih =>
    obtain ⟨q, w⟩ := qw
    by_cases hq : q = p
    · subst hq
      simp [record]
    · have hqp : ¬p = q := fun h => hq h.symm
      simp only [record, if_neg hq, List.map_cons, ih]
      by_cases hp : p ∈ rest.map Prod.fst
      · simp [hp, hqp]
      · simp [hp, hqp]

theorem nodup_keys_record (reg : List (String × Bool)) (p : String) (v : Bool)
    (h : (reg.map Prod.fst).Nodup) :
    ((record reg p v).map Prod.fst).Nodup := by
  rw [keys_record]
  by_cases hp : p ∈ reg.map Prod.fst
  · simpa [hp]
  · simpa [hp] using List.Nodup.append h (List.nodup_singleton p)
      (by simpa using hp)

theorem length_keys_record (reg : List (String × Bool)) (p : String)
    (v : Bool) : (record reg p v).length
      = if p ∈ reg.map Prod.fst then reg.length else reg.length + 1 := by
  have h := congrArg List.length (keys_record reg p v)
  simp only [List.length_map] at h
  by_cases hp : p ∈ reg.map Prod.fst
  · simpa [hp] using h
  · simpa [hp] using h

theorem countBlueprints_append (a b : List SinkEvent) :
    countBlueprints (a ++ b) = countBlueprints a + countBlueprints b := by
  simp [countBlueprints, List.countP_append]

theorem apply_blueprint_registry (st : ViewerState) :
    (apply_blueprint st).1.entity_visibility = st.entity_visibility := by
  by_cases h : st.blueprint_applied <;> simp [apply_blueprint, h]

theorem apply_blueprint_of_applied (st : ViewerState)
    (h : st.blueprint_applied = true) : apply_blueprint st = (st, []) := by
  simp [apply_blueprint, h]

theorem apply_blueprint_of_not_applied (st : ViewerState)
    (h : st.blueprint_applied = false) :
    apply_blueprint st
      = ({ st with blueprint_applied := true },
         [.sendBlueprint (buildBlueprint st.entity_visibility)]) := by
  simp [apply_blueprint, h]

theorem logShapes_blueprint_applied (l : List Shape) (st : ViewerState) :
    (logShapes st l).1.blueprint_applied = st.blueprint_applied := by
  induction l generalizing st with
  | nil => rfl
  | cons s rest ih => simp [logShapes, log_mesh, log_instances, ih]

theorem countBlueprints_logShapes (l : List Shape) (st : ViewerState) :
    countBlueprints (logShapes st l).2 = 0 := by
  induction l generalizing st with
  | nil => rfl
  | cons s rest ih =>
    simp only [logShapes, log_mesh, log_instances]
    rw [countBlueprints_append, countBlueprints_append, ih]
    rfl

theorem set_model_registry (st : ViewerState) (m : Model) :
    (set_model st m).1.entity_visibility
      = (logShapes st m.shapes).1.entity_visibility := by
  simp [set_model, apply_blueprint_registry]

theorem set_model_once (st : ViewerState) (m : Model)
    (h : st.blueprint_applied = false) :
    countBlueprints (set_model st m).2 = 1
      ∧ (set_model st m).1.blueprint_applied = true := by
  have h1 := logShapes_blueprint_applied m.shapes st
  rw [h] at h1
  have h2 := apply_blueprint_of_not_applied _ h1
  constructor
  · show countBlueprints
      ((logShapes st m.shapes).2
        ++ (apply_blueprint (logShapes st m.shapes).1).2) = 1
    rw [countBlueprints_append, countBlueprints_logShapes, h2]
    rfl
  · show (apply_blueprint (logShapes st m.shapes).1).1.blueprint_applied = true
    rw [h2]

theorem execOp_of_applied (st : ViewerState) (op : Op)
    (h : st.blueprint_applied = true) :
    (execOp st op).1.blueprint_applied = true
      ∧ countBlueprints (execOp st op).2 = 0 := by
  cases op with
  | logMesh p hd =>
    exact ⟨h, by simp [execOp, log_mesh, countBlueprints, isBlueprintEvent]⟩
  | logInstances p t hd =>
    exact ⟨h, by simp [execOp, log_instances, countBlueprints, isBlueprintEvent]⟩
  | setModel m =>
    have h1 := logShapes_blueprint_applied m.shapes st
    rw [h] at h1
    have h2 := apply_blueprint_of_applied _ h1
    constructor
    · show (apply_blueprint (logShapes st m.shapes).1).1.blueprint_applied = true
      rw [h2]
      exact h1
    · show countBlueprints
        ((logShapes st m.shapes).2
          ++ (apply_blueprint (logShapes st m.shapes).1).2) = 0
      rw [countBlueprints_append, countBlueprints_logShapes, h2]
      rfl

theorem runOps_of_applied (ops : List Op) (st : ViewerState)
    (h : st.blueprint_applied = true) :
    (runOps st ops).1.blueprint_applied = true
      ∧ countBlueprints (runOps st ops).2 = 0 := by
  induction ops generalizing st with
  | nil => exact ⟨h, rfl⟩
  | cons op rest ih =>
    have h1 := execOp_of_applied st op h
    have h2 := ih (execOp st op).1 h1.1
    refine ⟨by simpa [runOps] using h2.1, ?_⟩
    simp [runOps, countBlueprints_append, h1.2, h2.2]

theorem execOp_not_setModel (st : ViewerState) (op : Op)
    (hop : isSetModelOp op = false) (h : st.blueprint_applied = false) :
    (execOp st op).1.blueprint_applied = false
      ∧ countBlueprints (execOp st op).2 = 0 := by
  cases op with
  | logMesh p hd =>
    exact ⟨h, by simp [execOp, log_mesh, countBlueprints, isBlueprintEvent]⟩
  | logInstances p t hd =>
    exact ⟨h, by simp [execOp, log_instances, countBlueprints, isBlueprintEvent]⟩
  | setModel m => simp [isSetModelOp] at hop

theorem runOps_no_setModel (ops : List Op) (st : ViewerState)
    (hops : ops.all (fun op => !isSetModelOp op) = true)
    (h : st.blueprint_applied = false) :
    (runOps st ops).1.blueprint_applied = false
      ∧ countBlueprints (runOps st ops).2 = 0 := by
  induction ops generalizing st with
  | nil => exact ⟨h, rfl⟩
  | cons op rest ih =>
    rw [List.all_cons, Bool.and_eq_true] at hops
    have hop : isSetModelOp op = false := by
      simpa using hops.1
    have h1 := execOp_not_setModel st op hop h
    have h2 := ih (execOp st op).1 hops.2 h1.1
    refine ⟨by simpa [runOps] using h2.1, ?_⟩
    simp [runOps, countBlueprints_append, h1.2, h2.2]

theorem nodup_keys_logShapes (l : List Shape) (st : ViewerState)
    (h : (st.entity_visibility.map Prod.fst).Nodup) :
    ((logShapes st l).1.entity_visibility.map Prod.fst).Nodup := by
  induction l generalizing st with
  | nil => exact h
  | cons s rest ih =>
    exact ih _ (nodup_keys_record _ _ _ (nodup_keys_record _ _ _ h))

theorem nodup_keys_execOp (op : Op) (st : ViewerState)
    (h : (st.entity_visibility.map Prod.fst).Nodup) :
    ((execOp st op).1.entity_visibility.map Prod.fst).Nodup := by
  cases op with
  | logMesh p hd => exact nodup_keys_record _ _ _ h
  | logInstances p t hd => exact nodup_keys_record _ _ _ h
  | setModel m =>
    have h1 := nodup_keys_logShapes m.shapes st h
    simpa [execOp, set_model_registry] using h1

theorem nodup_keys_runOps (ops : List Op) (st : ViewerState)
    (h : (st.entity_visibility.map Prod.fst).Nodup) :
    ((runOps st ops).1.entity_visibility.map Prod.fst).Nodup := by
  induction ops generalizing st with
  | nil => exact h
  | cons op rest ih =>
    exact ih _ (nodup_keys_execOp op st h)

theorem geomHidden_record (reg : List (String × Bool)) (p : String) (v : Bool)
    (hreg : GeomHidden reg) (hpv : isTemplatePath p = true → v = false) :
    GeomHidden (record reg p v) := by
  intro pv hmem ht
  rcases mem_record reg p v pv hmem with h | h
  · exact hreg pv h ht
  · cases h
    exact hpv ht

theorem geomHidden_logShapes (l : List Shape) (st : ViewerState)
    (h : GeomHidden st.entity_visibility) :
    GeomHidden (logShapes st l).1.entity_visibility := by
  induction l generalizing st with
  | nil => exact h
  | cons s rest ih =>
    refine ih _ ?_
    refine geomHidden_record _ _ _ ?_ ?_
    · exact geomHidden_record _ _ _ h (fun _ => rfl)
    · intro ht
      rw [isTemplatePath_instances s.key] at ht
      cases ht

/-!
Claim theorems.
-/

/-- C1: requesting a local viewer attachment with no streaming endpoint
(server=false, launch_viewer=true, rerun available) does not raise the
explicit configuration error the specification requires: construction
fails with the unrelated internal unbound-local failure on the
conditionally assigned variable `server_uri`, exactly as the repository
test `test_init_server_false_launch_viewer_true_bug` asserts. -/
theorem viewer_without_server_hits_unbound_local :
    initViewer true "grpc://127.0.0.1:9876" false none true none
      = .error (.unboundLocal "server_uri") := rfl

/-- C2: a single `set_model` call on a session whose blueprint-applied flag
is not yet set transmits exactly one Blueprint, for a model with any number
of shapes, and sets the flag. -/
theorem set_model_triggers_blueprint_exactly_once (st : ViewerState)
    (m : Model) (h : st.blueprint_applied = false) :
    countBlueprints (set_model st m).2 = 1
      ∧ (set_model st m).1.blueprint_applied = true :=
  set_model_once st m h

/-- C2 witness at a concrete fresh session and a one-shape model. -/
theorem set_model_triggers_blueprint_exactly_once_witness :
    initialState.blueprint_applied = false
      ∧ countBlueprints
          (set_model initialState { shapes := [⟨"box", true⟩] }).2 = 1
      ∧ (set_model initialState
          { shapes := [⟨"box", true⟩] }).1.blueprint_applied = true := by
  have h := set_model_triggers_blueprint_exactly_once initialState
    { shapes := [⟨"box", true⟩] } rfl
  exact ⟨rfl, h.1, h.2⟩

/-- C3: once the blueprint-applied flag is set, `apply_blueprint` is a
no-op, logging calls still update the visibility registry, and no further
call sequence whatsoever causes a second Blueprint transmission. -/
theorem no_second_blueprint_after_applied (st : ViewerState)
    (h : st.blueprint_applied = true) :
    apply_blueprint st = (st, [])
      ∧ (∀ p hd,
          visibleOf (log_mesh st p hd).1.entity_visibility p = some (!hd))
      ∧ (∀ p t hd,
          visibleOf (log_instances st p t hd).1.entity_visibility p
            = some (!hd))
      ∧ (∀ ops, countBlueprints (runOps st ops).2 = 0) := by
  refine ⟨apply_blueprint_of_applied st h, ?_, ?_, ?_⟩
  · intro p hd
    exact visibleOf_record_self st.entity_visibility p (!hd)
  · intro p t hd
    exact visibleOf_record_self st.entity_visibility p (!hd)
  · intro ops
    exact (runOps_of_applied ops st h).2

/-- C3 witness: after a concrete `set_model`, applying the blueprint again
is a no-op and a further logging call transmits nothing. -/
theorem no_second_blueprint_after_applied_witness :
    apply_blueprint (set_model initialState { shapes := [⟨"box", true⟩] }).1
        = ((set_model initialState { shapes := [⟨"box", true⟩] }).1, [])
      ∧ countBlueprints
          (runOps (set_model initialState { shapes := [⟨"box", true⟩] }).1
            [Op.logMesh "/a" false]).2 = 0 := by
  have h := no_second_blueprint_after_applied
    (set_model initialState { shapes := [⟨"box", true⟩] }).1 (by decide)
  exact ⟨h.1, h.2.2.2 [Op.logMesh "/a" false]⟩

/-- C4: after `set_model` on a fresh session with a model having at least
one shape, every tracked entity path under the template prefix /geometry/
has visibility false in the registry. -/
theorem template_paths_hidden_after_set_model (st : ViewerState) (m : Model)
    (hreg : st.entity_visibility = []) (_hm : m.shapes ≠ []) :
    geomHiddenCheck (set_model st m).1.entity_visibility = true := by
  rw [geomHiddenCheck_iff, set_model_registry]
  apply geomHidden_logShapes
  rw [hreg]
  intro pv hpv
  cases hpv

/-- C4 witness at a concrete fresh session and a two-shape model. -/
theorem template_paths_hidden_after_set_model_witness :
    initialState.entity_visibility = []
      ∧ ({ shapes := [⟨"box", true⟩, ⟨"sph", false⟩] } : Model).shapes ≠ []
      ∧ geomHiddenCheck
          (set_model initialState
            { shapes := [⟨"box", true⟩, ⟨"sph", false⟩] }).1.entity_visibility
          = true := by
  refine ⟨rfl, by decide, ?_⟩
  exact template_paths_hidden_after_set_model initialState
    { shapes := [⟨"box", true⟩, ⟨"sph", false⟩] } rfl (by decide)

/-- C5: every logging call records visible = not hidden for its path, with
last-write-wins overwrite on re-logging, and the concrete scenario
log_mesh of /a hidden, then log_mesh of /a visible, then set_model of an
empty model, transmits a Blueprint holding exactly one override for /a
with visible=true. -/
theorem visibility_last_write_wins :
    (∀ st p hd,
        visibleOf (log_mesh st p hd).1.entity_visibility p = some (!hd))
      ∧ (∀ st p t hd,
          visibleOf (log_instances st p t hd).1.entity_visibility p
            = some (!hd))
      ∧ (∀ st p h1 h2,
          visibleOf
            (log_mesh (log_mesh st p h1).1 p h2).1.entity_visibility p
            = some (!h2))
      ∧ (set_model (log_mesh (log_mesh initialState "/a" true).1 "/a" false).1
            { shapes := [] }).2
          = [SinkEvent.sendBlueprint
              { overrides := [("/a", true)], defaultView := true }] := by
  refine ⟨?_, ?_, ?_, by decide⟩
  · intro st p hd
    exact visibleOf_record_self st.entity_visibility p (!hd)
  · intro st p t hd
    exact visibleOf_record_self st.entity_visibility p (!hd)
  · intro st p h1 h2
    exact visibleOf_record_self _ p (!h2)

/-- C6: at every reachable session state, the Blueprint built from the
registry snapshot carries exactly one override per distinct tracked entity
path. -/
theorem blueprint_one_override_per_distinct_path (ops : List Op) :
    (buildBlueprint
        (runOps initialState ops).1.entity_visibility).overrides.length
      = ((runOps initialState ops).1.entity_visibility.map
          Prod.fst).dedup.length := by
  have hnd := nodup_keys_runOps ops initialState (by simp [initialState])
  rw [List.Nodup.dedup hnd]
  simp [buildBlueprint]

/-- C7: with the rerun backend unavailable, construction fails immediately
with the dependency-missing error for every parameter combination, and its
message names the missing capability and the remedy. -/
theorem missing_backend_fails_at_construction (uri : String) (server : Bool)
    (address : Option String) (lv : Bool) (app : Option String) :
    initViewer false uri server address lv app
        = .error (.importError rerunMissingMsg)
      ∧ List.IsInfix "rerun package is required".data rerunMissingMsg.data
      ∧ List.IsInfix "pip install rerun-sdk".data rerunMissingMsg.data := by
  exact ⟨rfl, by decide, by decide⟩

/-- C8: before any `set_model` call no Blueprint is ever transmitted: any
call sequence free of set_model operations leaves the blueprint-applied
flag unset and emits zero Blueprint transmissions, however many logging
calls it contains. -/
theorem no_blueprint_before_set_model (ops : List Op)
    (hops : ops.all (fun op => !isSetModelOp op) = true) :
    countBlueprints (runOps initialState ops).2 = 0
      ∧ (runOps initialState ops).1.blueprint_applied = false := by
  have h := runOps_no_setModel ops initialState hops rfl
  exact ⟨h.2, h.1⟩

/-- C8 witness on a concrete sequence of two logging calls. -/
theorem no_blueprint_before_set_model_witness :
    ([Op.logMesh "/manual/mesh" true,
        Op.logInstances "/i" "/geometry/g" false].all
        (fun op => !isSetModelOp op)) = true
      ∧ countBlueprints
          (runOps initialState
            [Op.logMesh "/manual/mesh" true,
              Op.logInstances "/i" "/geometry/g" false]).2 = 0
      ∧ (runOps initialState
          [Op.logMesh "/manual/mesh" true,
            Op.logInstances "/i" "/geometry/g" false]).1.blueprint_applied
          = false := by
  have h := no_blueprint_before_set_model
    [Op.logMesh "/manual/mesh" true, Op.logInstances "/i" "/geometry/g" false]
    (by decide)
  exact ⟨by decide, h.1, h.2⟩

/-- C9: the address construction parameter is stored verbatim on the
session but never influences endpoint opening: the sink call trace of
construction, and whether it succeeds, are identical for any two address
values, and on success a supplied address is stored unchanged. -/
theorem address_stored_verbatim_but_unwired (rrA : Bool) (uri : String)
    (server lv : Bool) (app : Option String) (a1 a2 : Option String)
    (a : String) :
    Except.map Prod.snd (initViewer rrA uri server a1 lv app)
        = Except.map Prod.snd (initViewer rrA uri server a2 lv app)
      ∧ Except.map (fun p => p.1.address)
          (initViewer rrA uri server (some a) lv app)
        = Except.map (fun _ => a)
            (initViewer rrA uri server (some a) lv app) := by
  constructor
  · cases rrA <;> cases server <;> cases lv <;> simp [initViewer, Except.map]
  · cases rrA <;> cases server <;> cases lv <;> simp [initViewer, Except.map]

/-- C10: every successful construction yields the clean initial session
state: empty visibility registry, blueprint-applied flag false, running
flag true, no viewer process, and empty mesh and instance caches. -/
theorem construction_yields_clean_state (rrA : Bool) (uri : String)
    (server : Bool) (address : Option String) (lv : Bool)
    (app : Option String) (st : ViewerState) (ev : List SinkEvent)
    (h : initViewer rrA uri server address lv app = .ok (st, ev)) :
    st.entity_visibility = [] ∧ st.blueprint_applied = false
      ∧ st.running = true ∧ st.viewer_process = none
      ∧ st.meshes = [] ∧ st.instances = [] := by
  cases rrA with
  | false => simp [initViewer] at h
  | true =>
    cases lv with
    | false =>
      simp [initViewer] at h
      obtain ⟨h1, h2⟩ := h
      subst h1
      exact ⟨rfl, rfl, rfl, rfl, rfl, rfl⟩
    | true =>
      cases server with
      | false => simp [initViewer] at h
      | true =>
        simp [initViewer] at h
        obtain ⟨h1, h2⟩ := h
        subst h1
        exact ⟨rfl, rfl, rfl, rfl, rfl, rfl⟩

/-- C10 witness at the concrete disabled-server construction. -/
theorem construction_yields_clean_state_witness :
    initialState.entity_visibility = []
      ∧ initialState.blueprint_applied = false
      ∧ initialState.running = true ∧ initialState.viewer_process = none
      ∧ initialState.meshes = [] ∧ initialState.instances = [] :=
  construction_yields_clean_state true "grpc://127.0.0.1:9876" false none
    false none initialState [SinkEvent.rrInit "newton-viewer"] rfl

end NewtonViewer
